import Mathlib

/-!
Shallow embedding of the core evidence-to-question mapping and risk-scoring
pipeline of the vendor security assessment tool
(`src/evidence_extractor.py`, `src/questionnaire_mapper.py`,
`src/risk_assessor.py`), together with theorems settling the specified
claims about it.

Numeric values that the Python code holds in `float` variables are modelled
as exact rationals (`ℚ`), except where a concrete IEEE-754 double rounding
step is known to matter (the `len(category_questions) * 0.7` product in
`RiskAssessor._identify_risks`), which is modelled bit-exactly by
`floatMul07` below.
-/

namespace VSA

/-- Confidence tier of a question mapping (`'HIGH' | 'MEDIUM' | 'LOW' | 'NOT_FOUND'`
strings in the Python code). -/
inductive Conf where
  | HIGH
  | MEDIUM
  | LOW
  | NOT_FOUND
deriving DecidableEq, Repr

/-- Severity of an identified risk (`'HIGH' | 'MEDIUM' | 'LOW'` strings in the code). -/
inductive Severity where
  | HIGH
  | MEDIUM
  | LOW
deriving DecidableEq, Repr

/-- Confidence attached to an evidence item by the extractor
(`"low" | "medium" | "high"` strings in `evidence_extractor.py`). -/
inductive EvConf where
  | low
  | medium
  | high
deriving DecidableEq, Repr

/- ### String helpers (substring search, Python `str` methods) -/

/-- Test `startsWithChars needle hay`: `needle` is an initial segment of `hay`. -/
def startsWithChars : List Char → List Char → Bool
  | [], _ => true
  | _ :: _, [] => false
  | a :: as, b :: bs => a == b && startsWithChars as bs

/-- Test `containsChars needle hay`: `needle` occurs contiguously inside `hay`
(Python `needle in hay`). -/
def containsChars (needle : List Char) : List Char → Bool
  | [] => needle.isEmpty
  | c :: cs => startsWithChars needle (c :: cs) || containsChars needle cs

/-- Python `needle in hay` on strings. -/
def strContains (hay needle : String) : Bool :=
  containsChars needle.data hay.data

/-- Python `s.lower()` (ASCII case folding). -/
def lowerStr (s : String) : String :=
  ⟨s.data.map Char.toLower⟩

/-- Python `s.strip()`: remove leading and trailing whitespace. -/
def stripStr (s : String) : String :=
  ⟨((s.data.dropWhile Char.isWhitespace).reverse.dropWhile Char.isWhitespace).reverse⟩

/-- Python `s.replace('_', ' ')` for the single-character case used by the code. -/
def underscoreToSpace (s : String) : String :=
  ⟨s.data.map (fun c => if c = '_' then ' ' else c)⟩

/-- Helper for `titleize`: the Bool argument records whether the previous
character was alphabetic. -/
def titleizeAux : List Char → Bool → List Char
  | [], _ => []
  | c :: cs, prevAlpha =>
      (if c.isAlpha then (if prevAlpha then c.toLower else c.toUpper) else c)
        :: titleizeAux cs c.isAlpha

/-- Python `s.title()`: the first letter of every alphabetic run is uppercased,
the rest lowercased. -/
def titleize (s : String) : String :=
  ⟨titleizeAux s.data false⟩

/-- Worker for `pySplit`: accumulate the current word (reversed) and cut at
whitespace, discarding empty pieces. -/
def pySplitAux : List Char → List Char → List String
  | [], acc => if acc.isEmpty then [] else [⟨acc.reverse⟩]
  | c :: rest, acc =>
      if c.isWhitespace then
        if acc.isEmpty then pySplitAux rest [] else (⟨acc.reverse⟩ : String) :: pySplitAux rest []
      else pySplitAux rest (c :: acc)

/-- Python `s.split()`: split on whitespace runs, discarding empty pieces. -/
def pySplit (s : String) : List String :=
  pySplitAux s.data []

/-- The set of case-folded whitespace-split words of a string:
`set(s.lower().split())` in `QuestionnaireMapper.calculate_similarity`. -/
def tokenSet (s : String) : Finset String :=
  (pySplit (lowerStr s)).toFinset

/- ### Evidence extractor (`evidence_extractor.py`) -/

/-- Embeds `EvidenceExtractor.SECURITY_KEYWORDS`, verbatim. -/
def SECURITY_KEYWORDS : List String :=
  ["encryption", "authentication", "authorization", "access control",
   "audit", "logging", "monitoring", "backup", "disaster recovery",
   "incident response", "vulnerability", "patch management", "firewall",
   "antivirus", "malware", "penetration test", "security assessment",
   "compliance", "gdpr", "hipaa", "soc 2", "iso 27001", "pci dss",
   "data protection", "privacy", "confidentiality", "integrity",
   "availability", "multi-factor", "mfa", "2fa", "ssl", "tls",
   "certificate", "key management", "secrets", "password policy",
   "security training", "awareness", "background check", "vendor management"]

/-- One extracted evidence item (`extract_from_text` produces no `row_data`,
so that field is omitted here). -/
structure EvidenceItem where
  text : String
  keywords : List String
  source : String
  confidence : EvConf
  type : String
deriving DecidableEq, Repr

/-- Whether a character list starts with a whitespace character. -/
def headIsWhitespace : List Char → Bool
  | [] => false
  | c :: _ => c.isWhitespace

/-- Worker for `splitSentences`: scan the text, cutting whenever one of
`.`, `!`, `?` is immediately followed by whitespace; the punctuation
character and the maximal following whitespace run are consumed, mirroring
`re.split(r'[.!?]\s+', text)`.  The Bool argument is true while the
whitespace run following a cut is being consumed. -/
def splitSentAux : List Char → List Char → Bool → List (List Char)
  | [], acc, _ => [acc.reverse]
  | c :: rest, acc, skip =>
      if skip && c.isWhitespace then splitSentAux rest acc true
      else if (c = '.' ∨ c = '!' ∨ c = '?') ∧ headIsWhitespace rest then
        acc.reverse :: splitSentAux rest [] true
      else
        splitSentAux rest (c :: acc) false

/-- Embeds `re.split(r'[.!?]\s+', text)` from `extract_from_text`. -/
def splitSentences (text : String) : List String :=
  (splitSentAux text.data [] false).map fun cs => ⟨cs⟩

/-- The keywords of `SECURITY_KEYWORDS` occurring in the (already lowercased)
string: `[kw for kw in self.SECURITY_KEYWORDS if kw in sentence_lower]`. -/
def matchedKeywords (lowered : String) : List String :=
  SECURITY_KEYWORDS.filter (fun kw => strContains lowered kw)

/-- Embeds `EvidenceExtractor.extract_from_text`. -/
def extractFromText (text source_ref : String) : List EvidenceItem :=
  (splitSentences text).filterMap fun sent0 =>
    let sent := stripStr sent0
    if sent.length < 20 then none
    else
      let mk := matchedKeywords (lowerStr sent)
      if mk.isEmpty then none
      else some { text := sent
                  keywords := mk
                  source := source_ref
                  confidence := if 1 < mk.length then EvConf.medium else EvConf.low
                  type := "control_statement" }

/- ### Questionnaire mapper (`questionnaire_mapper.py`) -/

/-- A loaded questionnaire question. -/
structure Question where
  id : String
  question : String
  category : String
  row_num : ℕ
deriving DecidableEq, Repr

/-- An evidence item of the evidence library, as consumed by
`map_evidence_to_questions` (`evidence['text']`, `evidence['source']`,
`evidence.get('keywords', [])`, `evidence.get('type', 'unknown')`). -/
structure Evidence where
  text : String
  source : String
  keywords : List String
  type : String
deriving DecidableEq, Repr

/-- One matched-evidence record of a question mapping. -/
structure MatchedEvidence where
  evidence_text : String
  source : String
  keywords : List String
  similarity_score : ℚ
  evidence_type : String
deriving DecidableEq, Repr

/-- A question mapping, as appended to `self.question_mappings`. -/
structure QuestionMapping where
  question_id : String
  question : String
  category : String
  answer : String
  evidence : List MatchedEvidence
  confidence : Conf
  gaps : List String
deriving DecidableEq, Repr

/-- The keyword-overlap fallback of `QuestionnaireMapper.calculate_similarity`
(the `self.model is None` branch): `overlap / len(question_words)` with
word sets of the lowercased strings, `0.0` for a wordless question. -/
def calculateSimilarityFallback (question evidence_text : String) : ℚ :=
  let question_words := tokenSet question
  let evidence_words := tokenSet evidence_text
  let overlap := (question_words ∩ evidence_words).card
  -- `if question_words` in Python: the empty set is falsy
  if question_words.card = 0 then 0 else (overlap : ℚ) / question_words.card

/-- The lexical similarity score as the specification words it (Section 4.2):
`|tokens(question) ∩ tokens(evidenceText)| / |tokens(question)|`, `0` when the
question has no tokens.  Stated separately from
`calculateSimilarityFallback` so that the code can be compared against it. -/
def specLexicalScore (question evidence_text : String) : ℚ :=
  if tokenSet question = ∅ then 0
  else ((tokenSet question ∩ tokenSet evidence_text).card : ℚ) / (tokenSet question).card

/-- Fueled binary logarithm, structurally recursive (so that it evaluates
inside the kernel): for `1 ≤ n < 2^fuel`, this is `⌊log₂ n⌋`. -/
def log2Fuel : ℕ → ℕ → ℕ
  | 0, _ => 0
  | fuel + 1, n => if n < 2 then 0 else log2Fuel fuel (n / 2) + 1

/-- Computes `⌊log₂ n⌋` (0 at 0) for `n < 2^1100`, evaluating by structural recursion.
The bound covers every product `n * 0.7` that Python can form without raising
`OverflowError` (doubles overflow near `2^1024`). -/
def nlog2 (n : ℕ) : ℕ := log2Fuel 1100 n


/-- The evidence retained for one question: every library item whose
similarity is `>= threshold`, in library order
(the `matched_evidence.append` loop of `map_evidence_to_questions`). -/
def retainedList (sim : String → String → ℚ) (threshold : ℚ)
    (lib : List Evidence) (question_text : String) : List MatchedEvidence :=
  lib.filterMap fun ev =>
    let s := sim question_text ev.text
    if threshold ≤ s then
      some { evidence_text := ev.text
             source := ev.source
             keywords := ev.keywords
             similarity_score := s
             evidence_type := ev.type }
    else none

/-- Stable insertion for the descending sort by similarity score. -/
def insertDesc (e : MatchedEvidence) : List MatchedEvidence → List MatchedEvidence
  | [] => [e]
  | x :: xs =>
      if x.similarity_score ≤ e.similarity_score then e :: x :: xs
      else x :: insertDesc e xs

/-- Embeds `matched_evidence.sort(key=lambda x: x['similarity_score'], reverse=True)`:
Python's sort is stable, and a stable descending sort is computed uniquely by
stable insertion. -/
def sortDesc (l : List MatchedEvidence) : List MatchedEvidence :=
  l.foldr insertDesc []

/-- Embeds `QuestionnaireMapper._generate_answer`.  The literals `0.6` and `0.4` are
modelled as the exact rationals `3/5` and `2/5`. -/
def generateAnswer : List MatchedEvidence → String × Conf
  | [] => ("Insufficient Evidence", Conf.NOT_FOUND)
  | e :: _ =>
      if (3 : ℚ)/5 < e.similarity_score then
        ("Yes - " ++ e.evidence_text.take 200 ++ "...", Conf.HIGH)
      else if (2 : ℚ)/5 < e.similarity_score then
        ("Partially Addressed - See evidence", Conf.MEDIUM)
      else
        ("Insufficient Evidence", Conf.LOW)

/-- Embeds `QuestionnaireMapper._identify_gaps` (the first two checks are an
`if`/`elif` pair in the code; the single-source check is independent). -/
def identifyGaps (_question : String) (evidence_list : List MatchedEvidence) : List String :=
  (match evidence_list with
   | [] => ["No evidence found in vendor documentation"]
   | e :: _ =>
       if e.similarity_score < (2 : ℚ)/5 then ["Evidence is weak or indirect"] else [])
  ++ (if evidence_list.length < 2 then ["Single source only - requires corroboration"] else [])

/-- The per-question body of `map_evidence_to_questions`: retain, sort,
answer, truncate to the top 5, detect gaps. -/
def mapQuestion (sim : String → String → ℚ) (threshold : ℚ)
    (lib : List Evidence) (q : Question) : QuestionMapping :=
  let sorted := sortDesc (retainedList sim threshold lib q.question)
  let ac := generateAnswer sorted
  { question_id := q.id
    question := q.question
    category := q.category
    answer := ac.1
    evidence := sorted.take 5
    confidence := ac.2
    gaps := identifyGaps q.question sorted }

/-- Embeds `QuestionnaireMapper.map_evidence_to_questions` (default
`threshold = 0.3`); the similarity strategy is a parameter, covering both the
embedding model and the lexical fallback. -/
def mapEvidenceToQuestions (sim : String → String → ℚ) (threshold : ℚ)
    (questions : List Question) (lib : List Evidence) : List QuestionMapping :=
  questions.map (mapQuestion sim threshold lib)

/-- The top similarity score of a mapping's evidence sequence (the sequence is
stored sorted descending, so this is its maximum when it exists). -/
def topScore (m : QuestionMapping) : Option ℚ :=
  m.evidence.head?.map (fun e => e.similarity_score)

/-- Rank order of confidence tiers: HIGH > MEDIUM > LOW > NOT_FOUND. -/
def confRank : Conf → ℕ
  | Conf.HIGH => 3
  | Conf.MEDIUM => 2
  | Conf.LOW => 1
  | Conf.NOT_FOUND => 0

/- ### Risk assessor (`risk_assessor.py`) -/

/-- Embeds `RiskAssessor.RISK_CATEGORIES`, verbatim, in dict insertion order. -/
def RISK_CATEGORIES : List (String × List String) :=
  [("data_protection", ["encryption", "data protection", "privacy", "gdpr", "confidentiality"]),
   ("access_control", ["authentication", "authorization", "access control", "mfa", "password"]),
   ("monitoring", ["logging", "monitoring", "audit", "siem", "detection"]),
   ("incident_response", ["incident", "response", "breach", "disaster recovery", "backup"]),
   ("compliance", ["compliance", "certification", "soc 2", "iso 27001", "audit"]),
   ("vulnerability_management", ["vulnerability", "patch", "scanning", "penetration test"]),
   ("vendor_management", ["vendor", "third party", "supplier", "subprocessor"])]

/-- Embeds `any(kw in question_lower for kw in keywords)` with
`question_lower = mapping['question'].lower()`. -/
def questionMatches (keywords : List String) (question : String) : Bool :=
  keywords.any (fun kw => strContains (lowerStr question) kw)

/-- Embeds `sum(1 for m in category_questions if m['confidence'] in ['LOW', 'NOT_FOUND'])`. -/
def lowConfCount (category_questions : List QuestionMapping) : ℕ :=
  (category_questions.filter
    (fun m => decide (m.confidence = Conf.LOW ∨ m.confidence = Conf.NOT_FOUND))).length

/-- Round a nonnegative integer `N`, viewed as the rational `N / 2^52`, to 53
significant bits with IEEE-754 round-to-nearest, ties-to-even.  This is the
value of the double obtained from an exact product whose value is `N / 2^52`
(no overflow/underflow occurs for the magnitudes involved here). -/
def fl52 (N : ℕ) : ℚ :=
  if N < 2 ^ 53 then (N : ℚ) / 2 ^ 52
  else
    let s := nlog2 N + 1 - 53
    let q := N / 2 ^ s
    let r := N % 2 ^ s
    let h := 2 ^ (s - 1)
    let q2 := if h < r ∨ (r = h ∧ q % 2 = 1) then q + 1 else q
    ((q2 * 2 ^ s : ℕ) : ℚ) / 2 ^ 52

/-- The exact value of the Python expression `n * 0.7` for a nonnegative
integer `n`: the double literal `0.7` is `3152519739159347 / 2^52`, and the
product with the (exactly represented) integer `n` is rounded once.
For example `floatMul07 90 = 62.99999999999999… < 63`, while `0.7 * 90 = 63`
exactly — the source of the severity-rule deviation in `_identify_risks`. -/
def floatMul07 (n : ℕ) : ℚ :=
  fl52 (n * 3152519739159347)

/-- A risk record produced by `_identify_risks`. -/
structure Risk where
  category : String
  severity : Severity
  description : String
  affected_questions : List String
  gaps : List String
deriving DecidableEq, Repr

/-- The per-category body of `RiskAssessor._identify_risks`.

The `dedup` parameter models the iteration order of `list(set(...))`: within
one interpreter run it is a fixed function of the gap strings, but its
ordering is implementation defined, so it is kept abstract.

The comparison `low_conf_count > len(category_questions) * 0.5` is exact in
doubles (`0.5` and `n/2` are exactly representable), so it is modelled by the
exact rational comparison; the comparison against `* 0.7` is modelled
bit-exactly by `floatMul07`. -/
def processCategory (dedup : List String → List String)
    (mappings : List QuestionMapping) (cat : String × List String) : Option Risk :=
  let category_questions := mappings.filter (fun m => questionMatches cat.2 m.question)
  if category_questions.length = 0 then none
  else
    let low := lowConfCount category_questions
    if (category_questions.length : ℚ) * (1/2) < (low : ℚ) then
      some { category := titleize (underscoreToSpace cat.1)
             severity :=
               if floatMul07 category_questions.length < (low : ℚ) then Severity.HIGH
               else Severity.MEDIUM
             description :=
               "Insufficient evidence for " ++ toString low ++ "/"
                 ++ toString category_questions.length ++ " "
                 ++ underscoreToSpace cat.1 ++ " controls"
             affected_questions :=
               ((category_questions.filter
                   (fun m => decide (m.confidence = Conf.LOW ∨ m.confidence = Conf.NOT_FOUND))).map
                 (fun m => m.question_id))
             gaps := dedup ((category_questions.map (fun m => m.gaps)).flatten) }
    else none

/-- Embeds `risks.sort(key=lambda x: severity_order.get(x['severity'], 3))`: a stable
sort by a three-valued key is exactly bucket concatenation, severities being
always one of HIGH, MEDIUM, LOW here. -/
def sortBySeverity (risks : List Risk) : List Risk :=
  risks.filter (fun r => decide (r.severity = Severity.HIGH))
    ++ risks.filter (fun r => decide (r.severity = Severity.MEDIUM))
    ++ risks.filter (fun r => decide (r.severity = Severity.LOW))

/-- Embeds `RiskAssessor._identify_risks`. -/
def identifyRisks (dedup : List String → List String)
    (mappings : List QuestionMapping) : List Risk :=
  sortBySeverity (RISK_CATEGORIES.filterMap (processCategory dedup mappings))

/-- Embeds `RiskAssessor._analyze_confidence`: build the per-confidence counter by
folding over the mappings (`stats[conf] = stats.get(conf, 0) + 1`). -/
def analyzeConfidence (mappings : List QuestionMapping) : Conf → ℕ :=
  mappings.foldl
    (fun stats m => fun c => if c = m.confidence then stats c + 1 else stats c)
    (fun _ => 0)

/-- Embeds the dict `score_map` mapping HIGH, MEDIUM, LOW, NOT_FOUND to 3, 2, 1, 0. -/
def scoreMap : Conf → ℕ
  | Conf.HIGH => 3
  | Conf.MEDIUM => 2
  | Conf.LOW => 1
  | Conf.NOT_FOUND => 0

/-- Round a rational to the nearest integer, ties to even (the rounding mode
of Python's `round`). -/
def rndHalfEven (x : ℚ) : ℤ :=
  if x - ⌊x⌋ < 1/2 then ⌊x⌋
  else if (1 : ℚ)/2 < x - ⌊x⌋ then ⌊x⌋ + 1
  else if ⌊x⌋ % 2 = 0 then ⌊x⌋ else ⌊x⌋ + 1

/-- Python `round(x, 1)`: round to one decimal digit, ties to even. -/
def roundTo1 (x : ℚ) : ℚ :=
  ((rndHalfEven (10 * x) : ℤ) : ℚ) / 10

/-- Embeds `RiskAssessor._calculate_risk_score`, returning
`(round(normalized_score, 1), level)`; the level thresholds are applied to the
unrounded normalized score, as in the code. -/
def calculateRiskScore (mappings : List QuestionMapping) : ℚ × String :=
  let total := mappings.length
  if total = 0 then (0, "UNKNOWN")
  else
    let total_score := (mappings.map (fun m => scoreMap m.confidence)).sum
    let normalized_score : ℚ := (total_score : ℚ) / ((total : ℚ) * 3) * 100
    let level :=
      if (70 : ℚ) ≤ normalized_score then "LOW RISK"
      else if (50 : ℚ) ≤ normalized_score then "MEDIUM RISK"
      else if (30 : ℚ) ≤ normalized_score then "HIGH RISK"
      else "CRITICAL RISK"
    (roundTo1 normalized_score, level)

/- ### Threat model and recommendations (`risk_assessor.py`, continued) -/

/-- Vendor metadata dictionary (keys `vendor_name`, `data_stored`,
`integrations`, `services`); an absent key is `none`. -/
structure Metadata where
  vendor_name : Option String
  data_stored : Option String
  integrations : Option String
  services : Option String
deriving DecidableEq, Repr

/-- Python truthiness of `self.vendor_metadata`: the empty dict is falsy. -/
def Metadata.isEmptyDict (md : Metadata) : Bool :=
  md.vendor_name.isNone && md.data_stored.isNone
    && md.integrations.isNone && md.services.isNone

/-- Models the empty metadata dictionary. -/
def emptyMetadata : Metadata := ⟨none, none, none, none⟩

/-- Python truthiness of `d.get(key)` for a string value: absent or empty is falsy. -/
def getTruthy : Option String → Bool
  | none => false
  | some s => !s.isEmpty

/-- One web-search control record, as consumed by the assessor. -/
structure WebControl where
  title : Option String
  snippet : Option String
  url : Option String
deriving DecidableEq, Repr

/-- One web-search incident record, as consumed by the assessor. -/
structure Incident where
  title : Option String
  snippet : Option String
  url : Option String
  year : Option String
deriving DecidableEq, Repr

/-- The `web_search_results` dictionary (keys `controls`, `incidents`). -/
structure WebResults where
  controls : List WebControl
  incidents : List Incident
deriving DecidableEq, Repr

/-- Models missing web results. -/
def emptyWebResults : WebResults := ⟨[], []⟩

/-- A STRIDE threat entry of the generated threat model. -/
structure Threat where
  category : String
  severity : Severity
  description : String
  affected_questions : ℕ
  evidence_gaps : List String
  potential_impact : String
deriving DecidableEq, Repr

/-- An attack-surface entry of the generated threat model. -/
structure Surface where
  surface : String
  description : String
  exposure_level : String
deriving DecidableEq, Repr

/-- A mitigation entry of the generated threat model. -/
structure Mitigation where
  threat_category : String
  priority : String
  action : String
  specific_controls : List String
deriving DecidableEq, Repr

/-- The generated STRIDE threat model. -/
structure ThreatModel where
  framework : String
  threats : List Threat
  attack_surfaces : List Surface
  mitigations_needed : List Mitigation
deriving DecidableEq, Repr

/-- A prioritized recommendation. -/
structure Recommendation where
  priority : String
  category : String
  action : String
  rationale : String
  questions_to_followup : List String
deriving DecidableEq, Repr

/-- The `stride_mapping` dict of `_generate_threat_model`. -/
def strideMapping : List (String × String) :=
  [("Data Protection", "Information Disclosure"),
   ("Access Control", "Elevation of Privilege"),
   ("Monitoring", "Repudiation"),
   ("Incident Response", "Denial of Service"),
   ("Compliance", "Tampering"),
   ("Vulnerability Management", "Spoofing"),
   ("Vendor Management", "Elevation of Privilege")]

/-- Embeds `stride_mapping.get(risk['category'], 'Information Disclosure')`. -/
def strideOf (category : String) : String :=
  ((strideMapping.find? (fun p => p.1 == category)).map (fun p => p.2)).getD
    "Information Disclosure"

/-- The `impacts` dict of `_get_threat_impact`. -/
def impactTable : List (String × String) :=
  [("Spoofing", "Unauthorized access through identity impersonation"),
   ("Tampering", "Unauthorized modification of data or configurations"),
   ("Repudiation", "Inability to prove actions occurred or track accountability"),
   ("Information Disclosure", "Unauthorized access to sensitive data"),
   ("Denial of Service", "Service disruption affecting availability"),
   ("Elevation of Privilege", "Unauthorized access to elevated permissions"),
   ("Historical Incident", "Repeated security failures based on past incidents")]

/-- Embeds `RiskAssessor._get_threat_impact`. -/
def getThreatImpact (stride_category : String) (severity : Severity) : String :=
  let base := ((impactTable.find? (fun p => p.1 == stride_category)).map (fun p => p.2)).getD
    "Potential security impact"
  match severity with
  | Severity.HIGH => base ++ " - Critical impact to business operations"
  | Severity.MEDIUM => base ++ " - Moderate impact requiring attention"
  | Severity.LOW => base ++ " - Low impact but requires monitoring"

/-- The `controls` dict of `_suggest_controls`. -/
def controlTable : List (String × List String) :=
  [("Spoofing", ["Multi-factor authentication", "Strong password policies", "Identity verification"]),
   ("Tampering", ["Data integrity checks", "Code signing", "Change management"]),
   ("Repudiation", ["Comprehensive audit logging", "Digital signatures", "Time stamping"]),
   ("Information Disclosure", ["Encryption at rest and in transit", "Access controls", "Data classification"]),
   ("Denial of Service", ["Rate limiting", "DDoS protection", "Redundancy and failover"]),
   ("Elevation of Privilege", ["Least privilege access", "Role-based access control", "Regular access reviews"]),
   ("Historical Incident", ["Incident response plan review", "Security control validation", "Third-party audit"])]

/-- Embeds `RiskAssessor._suggest_controls`. -/
def suggestControls (threat_category : String) : List String :=
  ((controlTable.find? (fun p => p.1 == threat_category)).map (fun p => p.2)).getD
    ["General security hardening", "Regular security assessments"]

/-- Embeds `RiskAssessor._analyze_attack_surfaces`. -/
def analyzeAttackSurfaces (md : Metadata) : List Surface :=
  (if getTruthy md.data_stored then
    let data_types := md.data_stored.getD ""
    [{ surface := "Data Storage"
       description := "Vendor stores: " ++ data_types.take 100 ++ "..."
       exposure_level :=
         if ["pii", "credential", "password", "secret"].any
             (fun term => strContains (lowerStr data_types) term) then "HIGH"
         else "MEDIUM" }]
   else [])
  ++ (if getTruthy md.integrations then
    let integrations := md.integrations.getD ""
    [{ surface := "System Integration"
       description := "Integration points: " ++ integrations.take 100 ++ "..."
       exposure_level :=
         if ["production", "database", "api"].any
             (fun term => strContains (lowerStr integrations) term) then "HIGH"
         else "MEDIUM" }]
   else [])
  ++ (if getTruthy md.services then
    let services := md.services.getD ""
    [{ surface := "Service Access"
       description := "Services provided: " ++ services.take 100 ++ "..."
       exposure_level := "MEDIUM" }]
   else [])

/-- Embeds `RiskAssessor._generate_threat_model` (its `mappings` argument is unused
by the code). -/
def generateThreatModel (risks : List Risk) (ws : WebResults) (md : Metadata) : ThreatModel :=
  let riskThreats := risks.map fun r =>
    let stride_category := strideOf r.category
    { category := stride_category
      severity := r.severity
      description := r.description
      affected_questions := r.affected_questions.length
      evidence_gaps := r.gaps.take 3
      potential_impact := getThreatImpact stride_category r.severity : Threat }
  let incidentThreats := (ws.incidents.take 5).map fun inc =>
    { category := "Historical Incident"
      severity := Severity.HIGH
      description := "Past security incident: " ++ inc.title.getD "Unknown incident"
      affected_questions := 0
      evidence_gaps := []
      potential_impact := "Historical breach indicates potential vulnerabilities in security posture" : Threat }
  let threats := riskThreats ++ incidentThreats
  let surfaces := if md.isEmptyDict then [] else analyzeAttackSurfaces md
  let mitigations := threats.filterMap fun t =>
    -- `threat['severity'] in ['HIGH', 'CRITICAL']`; only HIGH is inhabited here
    if t.severity = Severity.HIGH then
      some { threat_category := t.category
             priority := if t.severity = Severity.HIGH then "Critical" else "High"
             action := "Address " ++ t.category ++ " risks"
             specific_controls := suggestControls t.category : Mitigation }
    else none
  { framework := "STRIDE"
    threats := threats
    attack_surfaces := surfaces
    mitigations_needed := mitigations }

/-- Embeds `RiskAssessor._generate_recommendations`. -/
def generateRecommendations (risks : List Risk)
    (mappings : List QuestionMapping) : List Recommendation :=
  let highRecs := risks.filterMap fun r =>
    if r.severity = Severity.HIGH then
      some { priority := "Critical"
             category := r.category
             action := "Request additional documentation for " ++ r.category ++ " controls"
             rationale := r.description
             questions_to_followup := r.affected_questions.take 5 : Recommendation }
    else none
  let not_found_questions := mappings.filter (fun m => decide (m.confidence = Conf.NOT_FOUND))
  highRecs
    ++ (if 5 < not_found_questions.length then
          [{ priority := "High"
             category := "Documentation"
             action := "Request comprehensive security documentation package"
             rationale := toString not_found_questions.length ++ " questions have no supporting evidence"
             questions_to_followup := (not_found_questions.take 10).map (fun m => m.question_id) }]
        else [])

/-- The `summary` sub-dictionary of the risk assessment. -/
structure Summary where
  total_questions : ℕ
  answered_high_confidence : ℕ
  answered_medium_confidence : ℕ
  answered_low_confidence : ℕ
  insufficient_evidence : ℕ
  critical_risks : ℕ
  medium_risks : ℕ
  low_risks : ℕ
deriving DecidableEq, Repr

/-- The complete risk assessment produced by `RiskAssessor.assess`. -/
structure RiskAssessment where
  overall_risk : String
  risk_score : ℚ
  confidence_distribution : Conf → ℕ
  risks : List Risk
  threat_model : ThreatModel
  recommendations : List Recommendation
  public_incidents_found : ℕ
  summary : Summary

/-- The mutable attributes of a `RiskAssessor` instance (`__init__` sets
`risk_assessment` to a stub dict, modelled here as `none`; the metadata and
web-results attributes do not exist before the first `assess` call). -/
structure AssessorState where
  vendor_metadata : Option Metadata
  web_search_results : Option WebResults
  risk_assessment : Option RiskAssessment

/-- The state of a freshly constructed `RiskAssessor`. -/
def initState : AssessorState := ⟨none, none, none⟩

/-- Embeds `RiskAssessor.assess`: stores the (defaulted) metadata and web results on
the instance, computes every part of the assessment from the inputs alone,
stores the result, and returns it. -/
def assess (dedup : List String → List String) (_st : AssessorState)
    (question_mappings : List QuestionMapping)
    (vendor_metadata : Option Metadata) (web_search_results : Option WebResults) :
    AssessorState × RiskAssessment :=
  let md := vendor_metadata.getD emptyMetadata
  let ws := web_search_results.getD emptyWebResults
  let confidence_stats := analyzeConfidence question_mappings
  let risks := identifyRisks dedup question_mappings
  let threat_model := generateThreatModel risks ws md
  let recommendations := generateRecommendations risks question_mappings
  let risk_score := calculateRiskScore question_mappings
  let ra : RiskAssessment :=
    { overall_risk := risk_score.2
      risk_score := risk_score.1
      confidence_distribution := confidence_stats
      risks := risks
      threat_model := threat_model
      recommendations := recommendations
      public_incidents_found := ws.incidents.length
      summary :=
        { total_questions := question_mappings.length
          answered_high_confidence := confidence_stats Conf.HIGH
          answered_medium_confidence := confidence_stats Conf.MEDIUM
          answered_low_confidence := confidence_stats Conf.LOW
          insufficient_evidence := confidence_stats Conf.NOT_FOUND
          critical_risks := (risks.filter (fun r => decide (r.severity = Severity.HIGH))).length
          medium_risks := (risks.filter (fun r => decide (r.severity = Severity.MEDIUM))).length
          low_risks := (risks.filter (fun r => decide (r.severity = Severity.LOW))).length } }
  (⟨some md, some ws, some ra⟩, ra)

/- ### Concrete inputs used by witnesses and counterexamples -/

/-- A concrete deduplication function standing in for the iteration order of
`list(set(...))` in witnesses and counterexamples (first occurrences kept). -/
def pyDedup (l : List String) : List String := l.eraseDups

/-- A mapping whose question text matches only the `vendor_management`
category keywords, with no supporting evidence. -/
def exMapNF : QuestionMapping :=
  { question_id := "Q1", question := "vendor", category := "General",
    answer := "Insufficient Evidence", evidence := [], confidence := Conf.NOT_FOUND, gaps := [] }

/-- Like `exMapNF` but with HIGH confidence. -/
def exMapHigh : QuestionMapping :=
  { exMapNF with confidence := Conf.HIGH }

/-- Ninety `vendor_management` questions of which exactly 63 (= 0.7 · 90) are
low-confidence: the input exhibiting the floating-point severity deviation. -/
def exMappings90 : List QuestionMapping :=
  List.replicate 63 exMapNF ++ List.replicate 27 exMapHigh

/-- The `vendor_management` entry of `RISK_CATEGORIES`. -/
def vmCat : String × List String :=
  ("vendor_management", ["vendor", "third party", "supplier", "subprocessor"])

/-- The risk that `_identify_risks` emits on `exMappings90`. -/
def exRisk90 : Risk :=
  { category := "Vendor Management", severity := Severity.HIGH,
    description := "Insufficient evidence for 63/90 vendor management controls",
    affected_questions := List.replicate 63 "Q1", gaps := [] }

/-- Three mappings with confidences HIGH, NOT_FOUND, NOT_FOUND: their exact
risk score `100 · 3 / 9` is not representable with one decimal digit. -/
def exMappings3 : List QuestionMapping :=
  [exMapHigh, exMapNF, exMapNF]

/-- A constant similarity strategy used to instantiate mapper theorems. -/
def simConst : String → String → ℚ := fun _ _ => 7/10

/-- A similarity strategy giving question "alpha" a higher top score than
question "beta". -/
def simPair : String → String → ℚ := fun q _ => if q = "alpha" then 7/10 else 1/2

/-- A concrete questionnaire question. -/
def exQuestion : Question :=
  { id := "Q2", question := "Does the vendor encrypt customer data at rest?",
    category := "General", row_num := 2 }

/-- A question whose text is "alpha" (for the monotonicity witness). -/
def exQuestionA : Question :=
  { id := "QA", question := "alpha", category := "General", row_num := 3 }

/-- A question whose text is "beta" (for the monotonicity witness). -/
def exQuestionB : Question :=
  { id := "QB", question := "beta", category := "General", row_num := 4 }

/-- A concrete library evidence item. -/
def exEvidence : Evidence :=
  { text := "All customer data is encrypted at rest using AES-256",
    source := "security.pdf (Page 3)", keywords := ["encryption"],
    type := "control_statement" }

/-- A one-item evidence library. -/
def exLib : List Evidence := [exEvidence]

/-- The matched-evidence record arising from `exEvidence` at score `7/10`. -/
def exMatched : MatchedEvidence :=
  { evidence_text := "All customer data is encrypted at rest using AES-256",
    source := "security.pdf (Page 3)", keywords := ["encryption"],
    similarity_score := 7/10, evidence_type := "control_statement" }

/-- A text whose first sentence matches exactly two security keywords. -/
def exText : String :=
  "The vendor uses encryption and mfa for remote access. ok"

/-- The evidence item extracted from `exText`. -/
def exItem : EvidenceItem :=
  { text := "The vendor uses encryption and mfa for remote access",
    keywords := ["encryption", "mfa"], source := "doc.pdf (Page 1)",
    confidence := EvConf.medium, type := "control_statement" }

/- ### Helper lemmas about the stable descending sort -/

theorem mem_insertDesc {y e : MatchedEvidence} :
    ∀ {l : List MatchedEvidence}, y ∈ insertDesc e l ↔ y = e ∨ y ∈ l
  | [] => by simp [insertDesc]
  | x :: xs => by
      simp only [insertDesc]
      split
      · simp [List.mem_cons]
      · simp only [List.mem_cons, mem_insertDesc (l := xs)]
        tauto

theorem sorted_insertDesc (e : MatchedEvidence) :
    ∀ {l : List MatchedEvidence},
      l.Sorted (fun a b => b.similarity_score ≤ a.similarity_score) →
      (insertDesc e l).Sorted (fun a b => b.similarity_score ≤ a.similarity_score)
  | [], _ => by simp [insertDesc]
  | x :: xs, h => by
      rw [List.sorted_cons] at h
      simp only [insertDesc]
      split
      · rename_i hxe
        rw [List.sorted_cons]
        refine ⟨?_, by rw [List.sorted_cons]; exact h⟩
        intro b hb
        rcases List.mem_cons.mp hb with rfl | hb
        · exact hxe
        · exact le_trans (h.1 b hb) hxe
      · rename_i hxe
        push_neg at hxe
        rw [List.sorted_cons]
        constructor
        · intro b hb
          rcases mem_insertDesc.mp hb with rfl | hb
          · exact le_of_lt hxe
          · exact h.1 b hb
        · exact sorted_insertDesc e h.2

theorem sorted_sortDesc :
    ∀ l : List MatchedEvidence,
      (sortDesc l).Sorted (fun a b => b.similarity_score ≤ a.similarity_score)
  | [] => by simp [sortDesc]
  | x :: xs => sorted_insertDesc x (sorted_sortDesc xs)

theorem mem_sortDesc {y : MatchedEvidence} :
    ∀ {l : List MatchedEvidence}, y ∈ sortDesc l ↔ y ∈ l
  | [] => Iff.rfl
  | x :: xs => by
      show y ∈ insertDesc x (sortDesc xs) ↔ _
      rw [mem_insertDesc, mem_sortDesc (l := xs), List.mem_cons]

theorem insertDesc_ne_nil (e : MatchedEvidence) (l : List MatchedEvidence) :
    insertDesc e l ≠ [] := by
  cases l with
  | nil => simp [insertDesc]
  | cons x xs =>
      simp only [insertDesc]
      split <;> simp

theorem sortDesc_eq_nil_iff {l : List MatchedEvidence} : sortDesc l = [] ↔ l = [] := by
  cases l with
  | nil => simp [sortDesc]
  | cons x xs =>
      constructor
      · intro h
        exact absurd h (insertDesc_ne_nil x (sortDesc xs))
      · intro h
        cases h

/-- The head of the sorted retained list bounds every retained score. -/
theorem head_sortDesc_max {l : List MatchedEvidence} {e : MatchedEvidence}
    (hh : (sortDesc l).head? = some e) :
    ∀ x ∈ l, x.similarity_score ≤ e.similarity_score := by
  intro x hx
  have hx' : x ∈ sortDesc l := mem_sortDesc.mpr hx
  cases hsd : sortDesc l with
  | nil => rw [hsd] at hx'; cases hx'
  | cons a t =>
      rw [hsd] at hh hx'
      have ha : a = e := by simpa using hh
      subst ha
      have hs := sorted_sortDesc l
      rw [hsd, List.sorted_cons] at hs
      rcases List.mem_cons.mp hx' with rfl | hx'
      · exact le_refl _
      · exact hs.1 x hx'

/-- The `evidence` field keeps the head of the sorted retained list. -/
theorem head_take5 (l : List MatchedEvidence) : (l.take 5).head? = l.head? := by
  cases l <;> rfl

/-- The confidence of a mapping with retained evidence is a function of the
top score alone. -/
theorem conf_of_head (sim : String → String → ℚ) (t : ℚ) (lib : List Evidence)
    (q : Question) (e : MatchedEvidence)
    (hh : (sortDesc (retainedList sim t lib q.question)).head? = some e) :
    (mapQuestion sim t lib q).confidence =
      (if (3 : ℚ)/5 < e.similarity_score then Conf.HIGH
       else if (2 : ℚ)/5 < e.similarity_score then Conf.MEDIUM else Conf.LOW) := by
  cases hsd : sortDesc (retainedList sim t lib q.question) with
  | nil => rw [hsd] at hh; cases hh
  | cons a u =>
      rw [hsd] at hh
      simp only [List.head?_cons, Option.some_inj] at hh
      subst hh
      show (generateAnswer (sortDesc (retainedList sim t lib q.question))).2 = _
      rw [hsd]
      simp only [generateAnswer]
      split_ifs <;> rfl

/-- Claim C1: for every question mapping, the answer/confidence pair is
derived from the top similarity score s of the retained evidence: no retained
evidence gives ("Insufficient Evidence", NOT_FOUND); s > 0.6 gives
"Yes - " ++ first 200 chars of the top evidence text ++ "..." with HIGH;
0.4 < s ≤ 0.6 gives ("Partially Addressed - See evidence", MEDIUM);
s ≤ 0.4 with evidence gives ("Insufficient Evidence", LOW). -/
theorem c1_answer_from_top_score (sim : String → String → ℚ) (t : ℚ)
    (qs : List Question) (lib : List Evidence) :
    mapEvidenceToQuestions sim t qs lib = qs.map (mapQuestion sim t lib) ∧
    ∀ q : Question,
      (retainedList sim t lib q.question = [] →
        (mapQuestion sim t lib q).answer = "Insufficient Evidence" ∧
        (mapQuestion sim t lib q).confidence = Conf.NOT_FOUND) ∧
      (∀ e, (sortDesc (retainedList sim t lib q.question)).head? = some e →
        (∀ x ∈ retainedList sim t lib q.question,
            x.similarity_score ≤ e.similarity_score) ∧
        ((3 : ℚ)/5 < e.similarity_score →
          (mapQuestion sim t lib q).answer = "Yes - " ++ e.evidence_text.take 200 ++ "..." ∧
          (mapQuestion sim t lib q).confidence = Conf.HIGH) ∧
        ((2 : ℚ)/5 < e.similarity_score → e.similarity_score ≤ 3/5 →
          (mapQuestion sim t lib q).answer = "Partially Addressed - See evidence" ∧
          (mapQuestion sim t lib q).confidence = Conf.MEDIUM) ∧
        (e.similarity_score ≤ (2 : ℚ)/5 →
          (mapQuestion sim t lib q).answer = "Insufficient Evidence" ∧
          (mapQuestion sim t lib q).confidence = Conf.LOW)) := by
  refine ⟨rfl, fun q => ⟨?_, ?_⟩⟩
  · intro h
    have hs : sortDesc (retainedList sim t lib q.question) = [] := by rw [h]; rfl
    constructor
    · show (generateAnswer (sortDesc (retainedList sim t lib q.question))).1 = _
      rw [hs]; rfl
    · show (generateAnswer (sortDesc (retainedList sim t lib q.question))).2 = _
      rw [hs]; rfl
  · intro e hh
    obtain ⟨u, hsd⟩ : ∃ u, sortDesc (retainedList sim t lib q.question) = e :: u := by
      cases hsd : sortDesc (retainedList sim t lib q.question) with
      | nil => rw [hsd] at hh; cases hh
      | cons a u =>
          rw [hsd] at hh
          simp only [List.head?_cons, Option.some_inj] at hh
          exact ⟨u, by rw [hh]⟩
    have hans : (mapQuestion sim t lib q).answer = (generateAnswer (e :: u)).1 := by
      show (generateAnswer (sortDesc (retainedList sim t lib q.question))).1 = _
      rw [hsd]
    have hconf : (mapQuestion sim t lib q).confidence = (generateAnswer (e :: u)).2 := by
      show (generateAnswer (sortDesc (retainedList sim t lib q.question))).2 = _
      rw [hsd]
    refine ⟨head_sortDesc_max hh, ?_, ?_, ?_⟩
    · intro h3
      refine ⟨?_, ?_⟩
      · rw [hans]; simp only [generateAnswer]; rw [if_pos h3]
      · rw [hconf]; simp only [generateAnswer]; rw [if_pos h3]
    · intro h2 h2'
      have hn3 : ¬ (3 : ℚ)/5 < e.similarity_score := not_lt.mpr h2'
      refine ⟨?_, ?_⟩
      · rw [hans]; simp only [generateAnswer]; rw [if_neg hn3, if_pos h2]
      · rw [hconf]; simp only [generateAnswer]; rw [if_neg hn3, if_pos h2]
    · intro h2
      have hn3 : ¬ (3 : ℚ)/5 < e.similarity_score :=
        not_lt.mpr (le_trans h2 (by norm_num))
      have hn2 : ¬ (2 : ℚ)/5 < e.similarity_score := not_lt.mpr h2
      refine ⟨?_, ?_⟩
      · rw [hans]; simp only [generateAnswer]; rw [if_neg hn3, if_neg hn2]
      · rw [hconf]; simp only [generateAnswer]; rw [if_neg hn3, if_neg hn2]

/-- Evaluates `retainedList` over a one-item library. -/
theorem retainedList_singleton (sim : String → String → ℚ) (t : ℚ)
    (ev : Evidence) (qtext : String) :
    retainedList sim t [ev] qtext =
      if t ≤ sim qtext ev.text then
        [{ evidence_text := ev.text, source := ev.source, keywords := ev.keywords,
           similarity_score := sim qtext ev.text, evidence_type := ev.type }]
      else [] := by
  by_cases h : t ≤ sim qtext ev.text
  · rw [if_pos h]
    simp only [retainedList, List.filterMap_cons, List.filterMap_nil, if_pos h]
  · rw [if_neg h]
    simp only [retainedList, List.filterMap_cons, List.filterMap_nil, if_neg h]

/-- Witness for C1: on a concrete one-item library with similarity 0.7,
the mapper answers "Yes - …" with HIGH confidence. -/
theorem c1_witness :
    (mapQuestion simConst (3/10) exLib exQuestion).answer
        = "Yes - " ++ exMatched.evidence_text.take 200 ++ "..." ∧
    (mapQuestion simConst (3/10) exLib exQuestion).confidence = Conf.HIGH := by
  have hret : retainedList simConst (3/10) exLib exQuestion.question = [exMatched] := by
    show retainedList simConst (3/10) [exEvidence] exQuestion.question = [exMatched]
    rw [retainedList_singleton]
    rw [if_pos (by norm_num [simConst])]
    rfl
  have hh : (sortDesc (retainedList simConst (3/10) exLib exQuestion.question)).head?
      = some exMatched := by
    rw [hret]; rfl
  exact (((c1_answer_from_top_score simConst (3/10) [exQuestion] exLib).2 exQuestion).2
    exMatched hh).2.1 (by norm_num [exMatched])

/-- Claim C5: a mapping's confidence is NOT_FOUND exactly when its evidence
sequence is empty. -/
theorem c5_not_found_iff_no_evidence (sim : String → String → ℚ) (t : ℚ)
    (qs : List Question) (lib : List Evidence) (m : QuestionMapping)
    (hm : m ∈ mapEvidenceToQuestions sim t qs lib) :
    m.confidence = Conf.NOT_FOUND ↔ m.evidence = [] := by
  obtain ⟨q, _, rfl⟩ := List.mem_map.mp hm
  cases hsd : sortDesc (retainedList sim t lib q.question) with
  | nil =>
      have hconf : (mapQuestion sim t lib q).confidence = Conf.NOT_FOUND := by
        show (generateAnswer (sortDesc (retainedList sim t lib q.question))).2 = _
        rw [hsd]; rfl
      have hev : (mapQuestion sim t lib q).evidence = [] := by
        show (sortDesc (retainedList sim t lib q.question)).take 5 = _
        rw [hsd]; rfl
      simp [hconf, hev]
  | cons e u =>
      have hconf : (mapQuestion sim t lib q).confidence ≠ Conf.NOT_FOUND := by
        show (generateAnswer (sortDesc (retainedList sim t lib q.question))).2 ≠ _
        rw [hsd]
        simp only [generateAnswer]
        split_ifs <;> simp
      have hev : (mapQuestion sim t lib q).evidence ≠ [] := by
        show (sortDesc (retainedList sim t lib q.question)).take 5 ≠ _
        rw [hsd]; simp
      simp [hconf, hev]

/-- Witness for C5: with an empty evidence library the produced mapping has
confidence NOT_FOUND. -/
theorem c5_witness :
    (mapQuestion simConst (3/10) [] exQuestion).confidence = Conf.NOT_FOUND := by
  have hm : mapQuestion simConst (3/10) [] exQuestion
      ∈ mapEvidenceToQuestions simConst (3/10) [exQuestion] [] := by
    simp [mapEvidenceToQuestions]
  exact (c5_not_found_iff_no_evidence simConst (3/10) [exQuestion] [] _ hm).mpr rfl

/-- Claim C4: under one similarity strategy, library and threshold, a strictly
higher top similarity score never gives a strictly lower confidence rank
(HIGH > MEDIUM > LOW > NOT_FOUND). -/
theorem c4_confidence_monotone (sim : String → String → ℚ) (t : ℚ)
    (lib : List Evidence) (qA qB : Question) (sA sB : ℚ)
    (hA : topScore (mapQuestion sim t lib qA) = some sA)
    (hB : topScore (mapQuestion sim t lib qB) = some sB)
    (hAB : sB < sA) :
    confRank (mapQuestion sim t lib qB).confidence
      ≤ confRank (mapQuestion sim t lib qA).confidence := by
  obtain ⟨eA, hA1, hA2⟩ := Option.map_eq_some'.mp hA
  obtain ⟨eB, hB1, hB2⟩ := Option.map_eq_some'.mp hB
  have hA1' : (sortDesc (retainedList sim t lib qA.question)).head? = some eA := by
    have : (mapQuestion sim t lib qA).evidence
        = (sortDesc (retainedList sim t lib qA.question)).take 5 := rfl
    rw [this, head_take5] at hA1
    exact hA1
  have hB1' : (sortDesc (retainedList sim t lib qB.question)).head? = some eB := by
    have : (mapQuestion sim t lib qB).evidence
        = (sortDesc (retainedList sim t lib qB.question)).take 5 := rfl
    rw [this, head_take5] at hB1
    exact hB1
  rw [conf_of_head sim t lib qA eA hA1', conf_of_head sim t lib qB eB hB1', hA2, hB2]
  split_ifs <;> simp [confRank] <;> linarith

/-- Witness for C4: question "alpha" has top score 0.7 (HIGH), question
"beta" has top score 0.5 (MEDIUM), and the ranks are ordered accordingly. -/
theorem c4_witness :
    confRank (mapQuestion simPair (3/10) exLib exQuestionB).confidence
      ≤ confRank (mapQuestion simPair (3/10) exLib exQuestionA).confidence := by
  have hretA : retainedList simPair (3/10) exLib exQuestionA.question
      = [{ exMatched with similarity_score := 7/10 }] := by
    show retainedList simPair (3/10) [exEvidence] exQuestionA.question = _
    rw [retainedList_singleton]
    rw [if_pos (by norm_num [simPair, exQuestionA])]
    simp [simPair, exQuestionA, exEvidence, exMatched]
  have hretB : retainedList simPair (3/10) exLib exQuestionB.question
      = [{ exMatched with similarity_score := 1/2 }] := by
    show retainedList simPair (3/10) [exEvidence] exQuestionB.question = _
    rw [retainedList_singleton]
    rw [if_pos (by simp only [simPair, exQuestionB]; rw [if_neg (by decide)]; norm_num)]
    simp [simPair, exQuestionB, exEvidence, exMatched]
  have hA : topScore (mapQuestion simPair (3/10) exLib exQuestionA) = some (7/10) := by
    show ((sortDesc (retainedList simPair (3/10) exLib exQuestionA.question)).take 5).head?.map
      (fun e => e.similarity_score) = _
    rw [hretA]; rfl
  have hB : topScore (mapQuestion simPair (3/10) exLib exQuestionB) = some (1/2) := by
    show ((sortDesc (retainedList simPair (3/10) exLib exQuestionB.question)).take 5).head?.map
      (fun e => e.similarity_score) = _
    rw [hretB]; rfl
  exact c4_confidence_monotone simPair (3/10) exLib exQuestionA exQuestionB (7/10) (1/2)
    hA hB (by norm_num)

/-- Claim C8: the lexical fallback similarity equals
`|tokens(q) ∩ tokens(e)| / |tokens(q)|` on case-folded whitespace-split word
sets, is 0 when the question has no tokens, and always lies in [0, 1]. -/
theorem c8_lexical_fallback (question evidence_text : String) :
    calculateSimilarityFallback question evidence_text
      = specLexicalScore question evidence_text ∧
    (tokenSet question = ∅ → calculateSimilarityFallback question evidence_text = 0) ∧
    0 ≤ calculateSimilarityFallback question evidence_text ∧
    calculateSimilarityFallback question evidence_text ≤ 1 := by
  refine ⟨?_, ?_, ?_, ?_⟩
  · by_cases h : tokenSet question = ∅
    · simp [calculateSimilarityFallback, specLexicalScore, h]
    · have h' : (tokenSet question).card ≠ 0 := by
        simpa [Finset.card_eq_zero] using h
      simp [calculateSimilarityFallback, specLexicalScore, h, h']
  · intro h
    simp [calculateSimilarityFallback, Finset.card_eq_zero.mpr h]
  · by_cases h : (tokenSet question).card = 0
    · simp [calculateSimilarityFallback, h]
    · simp only [calculateSimilarityFallback, if_neg h]
      positivity
  · by_cases h : (tokenSet question).card = 0
    · simp [calculateSimilarityFallback, h]
    · simp only [calculateSimilarityFallback, if_neg h]
      rw [div_le_one (by exact_mod_cast Nat.pos_of_ne_zero h)]
      exact_mod_cast Finset.card_le_card Finset.inter_subset_left

/-- Witness for C8: a concrete two-word question sharing one word with the
evidence scores 1/2, and a wordless question scores 0. -/
theorem c8_witness :
    calculateSimilarityFallback "alpha beta" "beta gamma" = 1/2 ∧
    calculateSimilarityFallback "" "beta gamma" = 0 := by
  constructor
  · rw [(c8_lexical_fallback "alpha beta" "beta gamma").1]
    have h0 : ¬ tokenSet "alpha beta" = ∅ := by
      intro h
      have : (tokenSet "alpha beta").card = 0 := by rw [h]; rfl
      have h2 : (tokenSet "alpha beta").card = 2 := by decide
      omega
    have h1 : (tokenSet "alpha beta" ∩ tokenSet "beta gamma").card = 1 := by decide
    have h2 : (tokenSet "alpha beta").card = 2 := by decide
    rw [specLexicalScore, if_neg h0, h1, h2]
    norm_num
  · exact (c8_lexical_fallback "" "beta gamma").2.1 rfl

/-- Claim C9: `extract_from_text` emits one item per sentence-like segment
(split at `.`/`!`/`?` followed by whitespace) that is at least 20 characters
long after stripping and matches at least one security keyword
(case-insensitively); the item's confidence is MEDIUM when more than one
keyword matched and LOW otherwise, its type is `control_statement`, and in
particular no item it produces has HIGH confidence. -/
theorem c9_extract_from_text (text source_ref : String) :
    (∀ item, item ∈ extractFromText text source_ref ↔
      ∃ sent0 ∈ splitSentences text,
        20 ≤ (stripStr sent0).length ∧
        matchedKeywords (lowerStr (stripStr sent0)) ≠ [] ∧
        item = { text := stripStr sent0
                 keywords := matchedKeywords (lowerStr (stripStr sent0))
                 source := source_ref
                 confidence :=
                   if 1 < (matchedKeywords (lowerStr (stripStr sent0))).length
                   then EvConf.medium else EvConf.low
                 type := "control_statement" }) ∧
    (∀ item ∈ extractFromText text source_ref,
      item.confidence ≠ EvConf.high ∧
      item.type = "control_statement" ∧
      (item.confidence = EvConf.medium ↔ 1 < item.keywords.length) ∧
      (item.confidence = EvConf.low ↔ item.keywords.length ≤ 1)) := by
  have hmem : ∀ item, item ∈ extractFromText text source_ref ↔
      ∃ sent0 ∈ splitSentences text,
        20 ≤ (stripStr sent0).length ∧
        matchedKeywords (lowerStr (stripStr sent0)) ≠ [] ∧
        item = { text := stripStr sent0
                 keywords := matchedKeywords (lowerStr (stripStr sent0))
                 source := source_ref
                 confidence :=
                   if 1 < (matchedKeywords (lowerStr (stripStr sent0))).length
                   then EvConf.medium else EvConf.low
                 type := "control_statement" } := by
    intro item
    simp only [extractFromText, List.mem_filterMap]
    constructor
    · rintro ⟨sent0, hs, hf⟩
      refine ⟨sent0, hs, ?_⟩
      by_cases h20 : (stripStr sent0).length < 20
      · rw [if_pos h20] at hf; cases hf
      · rw [if_neg h20] at hf
        by_cases hmk : (matchedKeywords (lowerStr (stripStr sent0))).isEmpty
        · rw [if_pos hmk] at hf; cases hf
        · rw [if_neg hmk] at hf
          refine ⟨le_of_not_lt h20, ?_, (Option.some_inj.mp hf).symm⟩
          simpa [List.isEmpty_iff] using hmk
    · rintro ⟨sent0, hs, h20, hmk, rfl⟩
      refine ⟨sent0, hs, ?_⟩
      dsimp only
      rw [if_neg (not_lt.mpr h20), if_neg (by simpa [List.isEmpty_iff] using hmk)]
  refine ⟨hmem, ?_⟩
  intro item hitem
  obtain ⟨sent0, _, h20, hmk, rfl⟩ := (hmem item).mp hitem
  refine ⟨?_, rfl, ?_, ?_⟩
  · dsimp only
    split_ifs <;> simp
  · dsimp only
    split_ifs with h <;> simp [h]
  · dsimp only
    split_ifs with h
    · constructor
      · intro hc
        exact absurd hc (by decide)
      · intro hle
        exact absurd hle (by omega)
    · simpa using Nat.not_lt.mp h

/-- Witness for C9: `exText`'s first sentence matches exactly the keywords
["encryption", "mfa"], so one MEDIUM item is produced, never a HIGH one. -/
theorem c9_witness :
    exItem ∈ extractFromText exText "doc.pdf (Page 1)" ∧
    exItem.confidence ≠ EvConf.high := by
  have hmemx : exItem ∈ extractFromText exText "doc.pdf (Page 1)" := by decide
  exact ⟨hmemx, ((c9_extract_from_text exText "doc.pdf (Page 1)").2 exItem hmemx).1⟩

/- ### Helper lemmas about the risk aggregation -/

/-- Membership is preserved by the severity bucket sort. -/
theorem mem_sortBySeverity {r : Risk} {l : List Risk} :
    r ∈ sortBySeverity l ↔ r ∈ l := by
  simp only [sortBySeverity, List.mem_append, List.mem_filter, decide_eq_true_eq]
  constructor
  · intro h
    rcases h with (⟨h, _⟩ | ⟨h, _⟩) | ⟨h, _⟩ <;> exact h
  · intro h
    cases hs : r.severity
    · exact Or.inl (Or.inl ⟨h, rfl⟩)
    · exact Or.inl (Or.inr ⟨h, rfl⟩)
    · exact Or.inr ⟨h, rfl⟩

/-- The exact `0.5`-threshold comparison of `_identify_risks` in integers. -/
theorem half_lt_iff (n low : ℕ) : (n : ℚ) * (1/2) < (low : ℚ) ↔ n < 2 * low := by
  constructor
  · intro h
    have h2 : (n : ℚ) < ((2 * low : ℕ) : ℚ) := by push_cast; linarith
    exact_mod_cast h2
  · intro h
    have h2 : (n : ℚ) < ((2 * low : ℕ) : ℚ) := by exact_mod_cast h
    push_cast at h2
    linarith

/-- Claim C2 (amended): a category with n > 0 matching questions emits a Risk
iff low > 0.5·n (exact, since `n * 0.5` is an exact double product), and the
emitted severity is HIGH iff low exceeds the double product `n * 0.7`
(`floatMul07 n`) — which differs from the exact `low > 0.7·n` when `7n/10` is
an integer whose double product rounds down, first at n = 90. -/
theorem c2_risk_rule (dedup : List String → List String)
    (mappings : List QuestionMapping) (cat : String × List String) :
    (∀ r, r ∈ identifyRisks dedup mappings ↔
        ∃ c ∈ RISK_CATEGORIES, processCategory dedup mappings c = some r) ∧
    ((processCategory dedup mappings cat).isSome ↔
        0 < (mappings.filter (fun m => questionMatches cat.2 m.question)).length ∧
        (mappings.filter (fun m => questionMatches cat.2 m.question)).length
          < 2 * lowConfCount (mappings.filter (fun m => questionMatches cat.2 m.question))) ∧
    (∀ r, processCategory dedup mappings cat = some r →
        r.severity =
          (if floatMul07 (mappings.filter (fun m => questionMatches cat.2 m.question)).length
              < (lowConfCount (mappings.filter (fun m => questionMatches cat.2 m.question)) : ℚ)
           then Severity.HIGH else Severity.MEDIUM)) := by
  refine ⟨?_, ?_, ?_⟩
  · intro r
    rw [identifyRisks, mem_sortBySeverity, List.mem_filterMap]
  · simp only [processCategory]
    by_cases h0 : (mappings.filter (fun m => questionMatches cat.2 m.question)).length = 0
    · rw [if_pos h0]
      simp [h0]
    · rw [if_neg h0]
      by_cases h1 : ((mappings.filter (fun m => questionMatches cat.2 m.question)).length : ℚ)
          * (1/2) < (lowConfCount (mappings.filter (fun m => questionMatches cat.2 m.question)) : ℚ)
      · rw [if_pos h1]
        constructor
        · intro _
          exact ⟨Nat.pos_of_ne_zero h0, (half_lt_iff _ _).mp h1⟩
        · intro _
          rfl
      · rw [if_neg h1]
        constructor
        · intro hc
          exact absurd hc (by simp)
        · rintro ⟨_, hc⟩
          exact absurd ((half_lt_iff _ _).mpr hc) h1
  · intro r hr
    simp only [processCategory] at hr
    split_ifs at hr with h0 h1 h2
    · obtain rfl := Option.some_inj.mp hr
      exact (if_pos h2).symm
    · obtain rfl := Option.some_inj.mp hr
      exact (if_neg h2).symm

/-- The aggregator emits exactly one risk, of HIGH severity, on the 90
`vendor_management` mappings of which 63 are low-confidence. -/
theorem ex90_identifyRisks : identifyRisks pyDedup exMappings90 = [exRisk90] := by
  have hfl : floatMul07 90 < 63 := by
    have hlog : nlog2 (90 * 3152519739159347) = 57 := by decide
    simp only [floatMul07, fl52, hlog]
    norm_num
  have hcq : exMappings90.filter (fun m => questionMatches vmCat.2 m.question)
      = exMappings90 := by decide
  have hn : exMappings90.length = 90 := by decide
  have hlow : lowConfCount exMappings90 = 63 := by decide
  have hvm : processCategory pyDedup exMappings90
      ("vendor_management", ["vendor", "third party", "supplier", "subprocessor"])
      = some exRisk90 := by
    show processCategory pyDedup exMappings90 vmCat = some exRisk90
    simp only [processCategory, hcq, hn, hlow]
    rw [if_neg (by norm_num), if_pos (by push_cast; norm_num)]
    rw [if_pos (by exact_mod_cast hfl)]
    decide
  have h1 : processCategory pyDedup exMappings90
      ("data_protection", ["encryption", "data protection", "privacy", "gdpr", "confidentiality"])
      = none := by decide
  have h2 : processCategory pyDedup exMappings90
      ("access_control", ["authentication", "authorization", "access control", "mfa", "password"])
      = none := by decide
  have h3 : processCategory pyDedup exMappings90
      ("monitoring", ["logging", "monitoring", "audit", "siem", "detection"]) = none := by decide
  have h4 : processCategory pyDedup exMappings90
      ("incident_response", ["incident", "response", "breach", "disaster recovery", "backup"])
      = none := by decide
  have h5 : processCategory pyDedup exMappings90
      ("compliance", ["compliance", "certification", "soc 2", "iso 27001", "audit"])
      = none := by decide
  have h6 : processCategory pyDedup exMappings90
      ("vulnerability_management", ["vulnerability", "patch", "scanning", "penetration test"])
      = none := by decide
  simp only [identifyRisks, RISK_CATEGORIES, List.filterMap_cons, List.filterMap_nil,
    h1, h2, h3, h4, h5, h6, hvm]
  decide

/-- Counterexample for C2 as stated: on `exMappings90` (n = 90 matching
`vendor_management` questions, low = 63), the code emits a HIGH-severity risk,
yet low > 0.7·n is false (63 = 0.7·90 exactly), so the claim's severity rule
demands MEDIUM.  The cause is the double product `90 * 0.7 =
62.99999999999999 < 63` in `_identify_risks`. -/
theorem c2_counterexample :
    (identifyRisks pyDedup exMappings90).map (fun r => r.severity) = [Severity.HIGH] ∧
    ¬ ((63 : ℚ) > (7/10) * 90) := by
  constructor
  · rw [ex90_identifyRisks]
    rfl
  · norm_num

/-- Witness for C2: the `vendor_management` category on `exMappings90` does
emit a risk, by the amended rule (n = 90 > 0 and 90 < 2·63). -/
theorem c2_witness : (processCategory pyDedup exMappings90 vmCat).isSome :=
  ((c2_risk_rule pyDedup exMappings90 vmCat).2.1).mpr ⟨by decide, by decide⟩

/-- Claim C3 (amended): with n = 0 the assessment's score is 0 and its level
UNKNOWN; with n > 0 the stored score is `100·Σweight/(3n)` rounded to one
decimal digit (Python `round(·, 1)`), and the level thresholds
(≥70 LOW RISK, ≥50 MEDIUM RISK, ≥30 HIGH RISK, else CRITICAL RISK) are
applied to the unrounded value. -/
theorem c3_risk_score (dedup : List String → List String) (st : AssessorState)
    (mappings : List QuestionMapping)
    (vmd : Option Metadata) (wsr : Option WebResults) :
    (mappings.length = 0 →
      (assess dedup st mappings vmd wsr).2.risk_score = 0 ∧
      (assess dedup st mappings vmd wsr).2.overall_risk = "UNKNOWN") ∧
    (0 < mappings.length →
      (assess dedup st mappings vmd wsr).2.risk_score
        = roundTo1 (100 * ((mappings.map (fun m => scoreMap m.confidence)).sum : ℚ)
            / (3 * mappings.length)) ∧
      (assess dedup st mappings vmd wsr).2.overall_risk
        = (if (70 : ℚ) ≤ 100 * ((mappings.map (fun m => scoreMap m.confidence)).sum : ℚ)
              / (3 * mappings.length) then "LOW RISK"
           else if (50 : ℚ) ≤ 100 * ((mappings.map (fun m => scoreMap m.confidence)).sum : ℚ)
              / (3 * mappings.length) then "MEDIUM RISK"
           else if (30 : ℚ) ≤ 100 * ((mappings.map (fun m => scoreMap m.confidence)).sum : ℚ)
              / (3 * mappings.length) then "HIGH RISK"
           else "CRITICAL RISK")) := by
  have hsc : (assess dedup st mappings vmd wsr).2.risk_score
      = (calculateRiskScore mappings).1 := rfl
  have hlv : (assess dedup st mappings vmd wsr).2.overall_risk
      = (calculateRiskScore mappings).2 := rfl
  constructor
  · intro h
    rw [hsc, hlv]
    simp [calculateRiskScore, h]
  · intro h
    have hne : mappings.length ≠ 0 := Nat.pos_iff_ne_zero.mp h
    have hq : ((mappings.length : ℚ)) ≠ 0 := Nat.cast_ne_zero.mpr hne
    have hkey : ((mappings.map (fun m => scoreMap m.confidence)).sum : ℚ)
        / ((mappings.length : ℚ) * 3) * 100
        = 100 * ((mappings.map (fun m => scoreMap m.confidence)).sum : ℚ)
            / (3 * mappings.length) := by
      field_simp
      ring
    rw [hsc, hlv]
    simp only [calculateRiskScore, if_neg hne]
    rw [hkey]
    exact ⟨rfl, rfl⟩

/-- Counterexample for C3 as stated: on three mappings [HIGH, NOT_FOUND,
NOT_FOUND] the stored risk score is `round(100/3, 1) = 33.3`, which is not
equal to the claimed `100 · Σweight / (3·n) = 100·3/9`. -/
theorem c3_counterexample :
    (calculateRiskScore exMappings3).1 = 333/10 ∧
    (333 : ℚ)/10 ≠ 100 * 3 / (3 * 3) := by
  constructor
  · have hsum : (exMappings3.map (fun m => scoreMap m.confidence)).sum = 3 := by decide
    have hlen : exMappings3.length = 3 := by decide
    simp only [calculateRiskScore, hlen, hsum]
    rw [if_neg (by norm_num)]
    norm_num [roundTo1, rndHalfEven]
  · norm_num

/-- Witness for C3: applying the amended theorem to `exMappings3`. -/
theorem c3_witness :
    (assess pyDedup initState exMappings3 none none).2.risk_score
      = roundTo1 (100 * ((exMappings3.map (fun m => scoreMap m.confidence)).sum : ℚ)
          / (3 * exMappings3.length)) :=
  ((c3_risk_score pyDedup initState exMappings3 none none).2 (by decide)).1

/-- Claim C6: the aggregation is deterministic in its inputs.  `assess` is
modelled with the instance's mutable attributes threaded explicitly and the
iteration order of `list(set(...))` as an abstract but fixed `dedup` function
(fixed within one interpreter run): the produced assessment is independent of
the incoming instance state, so running `assess` twice in succession — the
second run starting from the state the first one left behind — returns the
identical `RiskAssessment` value. -/
theorem c6_deterministic (dedup : List String → List String)
    (mappings : List QuestionMapping)
    (vmd : Option Metadata) (wsr : Option WebResults) (st st' : AssessorState) :
    (assess dedup st mappings vmd wsr).2 = (assess dedup st' mappings vmd wsr).2 ∧
    (assess dedup ((assess dedup st mappings vmd wsr).1) mappings vmd wsr).2
      = (assess dedup st mappings vmd wsr).2 :=
  ⟨rfl, rfl⟩

/-- A filter by a predicate false on every element of a list is empty. -/
theorem filter_severity_low_nil :
    ∀ (l : List Risk), (∀ r ∈ l, r.severity ≠ Severity.LOW) →
      l.filter (fun r => decide (r.severity = Severity.LOW)) = []
  | [], _ => rfl
  | r :: rs, h => by
      have hr : r.severity ≠ Severity.LOW := h r (List.mem_cons_self r rs)
      simp only [List.filter_cons, decide_eq_true_eq, if_neg hr]
      exact filter_severity_low_nil rs fun x hx => h x (List.mem_cons_of_mem r hx)

/-- Claim C7: no emitted Risk ever has severity LOW, and consequently the
summary's `low_risks` count is always 0. -/
theorem c7_no_low_severity (dedup : List String → List String) (st : AssessorState)
    (mappings : List QuestionMapping)
    (vmd : Option Metadata) (wsr : Option WebResults) :
    (∀ r ∈ (assess dedup st mappings vmd wsr).2.risks, r.severity ≠ Severity.LOW) ∧
    (assess dedup st mappings vmd wsr).2.summary.low_risks = 0 := by
  have hmain : ∀ r ∈ identifyRisks dedup mappings, r.severity ≠ Severity.LOW := by
    intro r hr
    obtain ⟨c, _, hc⟩ := List.mem_filterMap.mp (mem_sortBySeverity.mp hr)
    simp only [processCategory] at hc
    split_ifs at hc with h0 h1 h2
    · obtain rfl := Option.some_inj.mp hc
      simp
    · obtain rfl := Option.some_inj.mp hc
      simp
  constructor
  · intro r hr
    exact hmain r hr
  · show ((identifyRisks dedup mappings).filter
        (fun r => decide (r.severity = Severity.LOW))).length = 0
    rw [filter_severity_low_nil _ hmain]
    rfl

/-- Witness for C7: on `exMappings90` the single emitted risk is not LOW and
the summary's low-risk count is 0. -/
theorem c7_witness :
    exRisk90.severity ≠ Severity.LOW ∧
    (assess pyDedup initState exMappings90 none none).2.summary.low_risks = 0 := by
  have h := c7_no_low_severity pyDedup initState exMappings90 none none
  refine ⟨h.1 exRisk90 ?_, h.2⟩
  show exRisk90 ∈ identifyRisks pyDedup exMappings90
  rw [ex90_identifyRisks]
  exact List.mem_singleton_self _

/-- Summing the four confidence-counter buckets built by the
`_analyze_confidence` fold counts every mapping exactly once. -/
theorem foldl_conf_sum :
    ∀ (ms : List QuestionMapping) (f : Conf → ℕ),
      (List.foldl (fun stats m => fun c => if c = m.confidence then stats c + 1 else stats c)
          f ms) Conf.HIGH
        + (List.foldl (fun stats m => fun c => if c = m.confidence then stats c + 1 else stats c)
            f ms) Conf.MEDIUM
        + (List.foldl (fun stats m => fun c => if c = m.confidence then stats c + 1 else stats c)
            f ms) Conf.LOW
        + (List.foldl (fun stats m => fun c => if c = m.confidence then stats c + 1 else stats c)
            f ms) Conf.NOT_FOUND
        = f Conf.HIGH + f Conf.MEDIUM + f Conf.LOW + f Conf.NOT_FOUND + ms.length
  | [], f => by simp
  | m :: ms, f => by
      simp only [List.foldl_cons, List.length_cons]
      rw [foldl_conf_sum ms]
      cases hc : m.confidence <;> simp [hc] <;> omega

/-- Claim C10: the confidence distribution counts each mapping under exactly
one of the four confidence keys, so its counts sum to
`summary.total_questions`, which equals the number of input mappings. -/
theorem c10_distribution_sums (dedup : List String → List String) (st : AssessorState)
    (mappings : List QuestionMapping)
    (vmd : Option Metadata) (wsr : Option WebResults) :
    (assess dedup st mappings vmd wsr).2.confidence_distribution Conf.HIGH
      + (assess dedup st mappings vmd wsr).2.confidence_distribution Conf.MEDIUM
      + (assess dedup st mappings vmd wsr).2.confidence_distribution Conf.LOW
      + (assess dedup st mappings vmd wsr).2.confidence_distribution Conf.NOT_FOUND
      = (assess dedup st mappings vmd wsr).2.summary.total_questions ∧
    (assess dedup st mappings vmd wsr).2.summary.total_questions = mappings.length := by
  have h1 : (assess dedup st mappings vmd wsr).2.confidence_distribution
      = analyzeConfidence mappings := rfl
  have h2 : (assess dedup st mappings vmd wsr).2.summary.total_questions
      = mappings.length := rfl
  rw [h1, h2]
  refine ⟨?_, rfl⟩
  simpa [analyzeConfidence] using foldl_conf_sum mappings (fun _ => 0)

end VSA
